import Mathlib

/-!
Shallow embedding of the code-submission evaluation pipeline of the
PythonMastery repository (source: `src/server/routes.ts`).

The two HTTP handlers `POST /api/execute-code` (routes.ts lines 215-369)
and `POST /api/submit-solution` (routes.ts lines 372-539) are modelled as
pure Lean functions.  The JavaScript string primitives they rely on
(`String.prototype.includes`, `String.prototype.match` with the four
fixed regular expressions, `String.prototype.trim`, `parseInt`,
`Array.prototype.join`, `Array.prototype.map` with index) are modelled
first, on `List Char`.  `Math.random()` is modelled as a rational
parameter `rand` (the source draws it fresh per request); the handlers
take it explicitly.  The database lookup of the problem row in
`/api/submit-solution` is modelled by passing the found problem record
directly (the 404 branch for a missing row is outside every claim).
-/

namespace PyMastery

/-! ### JavaScript string primitives -/

/-- One character of the JS whitespace class `\s` (the ASCII part:
space, tab, line feed, carriage return, vertical tab, form feed; the
submitted code in this repository is ASCII). -/
def isJsSpace (c : Char) : Bool :=
  c = ' ' || c = '\t' || c = '\n' || c = '\r' || c = '\x0b' || c = '\x0c'

/-- A JS regex `["']` quote alternative: double or single quote. -/
def isQuote (c : Char) : Bool :=
  c = '"' || c = Char.ofNat 39

/-- A JS regex `\w` word character: `[A-Za-z0-9_]`. -/
def isWordChar (c : Char) : Bool :=
  c.isAlphanum || c = '_'

/-- Does `pat` occur at the very start of `s`?  (Helper for
`String.prototype.includes`.) -/
def charsPrefixOf : List Char → List Char → Bool
  | [], _ => true
  | _ :: _, [] => false
  | p :: ps, c :: cs => p = c && charsPrefixOf ps cs

/-- Does `pat` occur anywhere in `s`?  Models
`s.includes(pat)` of JavaScript. -/
def charsIncludes (pat : List Char) : List Char → Bool
  | [] => charsPrefixOf pat []
  | c :: cs => charsPrefixOf pat (c :: cs) || charsIncludes pat cs

/-- `code.includes(pat)` on `String`. -/
def jsIncludes (s pat : String) : Bool :=
  charsIncludes pat.data s.data

/-- Consume the literal `lit` from the front of `s`; `none` when `s`
does not start with it. -/
def dropLit : List Char → List Char → Option (List Char)
  | [], s => some s
  | _ :: _, [] => none
  | p :: ps, c :: cs => if p = c then dropLit ps cs else none

/-- Attempt to match the regex `KEY\s*=\s*["']([^"']+)["']` at the very
start of `s` (`KEY` is the literal `key`), returning the captured group.
The greedy `\s*`, `[^"']+` pieces are deterministic here: neither can
backtrack into a successful parse (whitespace can never satisfy `=`,
and a non-quote character can never satisfy the closing `["']`), so
maximal munch is exactly the JS semantics. -/
def matchQuotedAt (key : List Char) (s : List Char) : Option (List Char) :=
  match dropLit key s with
  | none => none
  | some r1 =>
    match r1.dropWhile isJsSpace with
    | '=' :: r2 =>
      match (r2.dropWhile isJsSpace) with
      | q :: r3 =>
        if isQuote q then
          match r3.takeWhile (fun c => !(isQuote c)), r3.dropWhile (fun c => !(isQuote c)) with
          | [], _ => none
          | _ :: _, [] => none
          | g :: gs, q2 :: _ => if isQuote q2 then some (g :: gs) else none
        else none
      | [] => none
    | _ => none

/-- Leftmost match of `KEY\s*=\s*["']([^"']+)["']` over the whole
string, returning capture group 1 — models
`code.match(/KEY\s*=\s*["']([^"']+)["']/)` (first match wins, scanning
start positions left to right). -/
def findQuoted (key : List Char) : List Char → Option (List Char)
  | [] => matchQuotedAt key []
  | c :: cs =>
    match matchQuotedAt key (c :: cs) with
    | some g => some g
    | none => findQuoted key cs

/-- Attempt to match `KEY\s*=\s*(\d+)` at the start of `s`, returning
the captured digit run. -/
def matchDigitsAt (key : List Char) (s : List Char) : Option (List Char) :=
  match dropLit key s with
  | none => none
  | some r1 =>
    match r1.dropWhile isJsSpace with
    | '=' :: r2 =>
      match (r2.dropWhile isJsSpace).takeWhile Char.isDigit with
      | [] => none
      | d :: ds => some (d :: ds)
    | _ => none

/-- Leftmost match of `KEY\s*=\s*(\d+)`, returning capture group 1 —
models `code.match(/age\s*=\s*(\d+)/)`. -/
def findDigits (key : List Char) : List Char → Option (List Char)
  | [] => matchDigitsAt key []
  | c :: cs =>
    match matchDigitsAt key (c :: cs) with
    | some g => some g
    | none => findDigits key cs

/-- Attempt to match `def\s+(\w+)` at the start of `s`, returning the
captured word. -/
def matchFuncAt (s : List Char) : Option (List Char) :=
  match dropLit "def".data s with
  | none => none
  | some r1 =>
    match r1.takeWhile isJsSpace with
    | [] => none
    | _ :: _ =>
      match (r1.dropWhile isJsSpace).takeWhile isWordChar with
      | [] => none
      | w :: ws => some (w :: ws)

/-- Leftmost match of `def\s+(\w+)` — models
`code.match(/def\s+(\w+)/)`, used to extract the declared function
name. -/
def findFunc : List Char → Option (List Char)
  | [] => matchFuncAt []
  | c :: cs =>
    match matchFuncAt (c :: cs) with
    | some g => some g
    | none => findFunc cs

/-- Numeric value of a digit run — models `parseInt` applied to a
capture of `(\d+)` (always a plain base-10 natural number). -/
def digitsToNat (ds : List Char) : Nat :=
  ds.foldl (fun n c => n * 10 + (c.toNat - '0'.toNat)) 0

/-- `g.trim() === ''` for a capture group `g`: true exactly when every
character is whitespace (JS `trim` strips whitespace from both ends). -/
def trimIsEmpty (g : List Char) : Bool :=
  g.all isJsSpace

/-- `xs.join(sep)` of JavaScript on an array of strings. -/
def joinSep (sep : String) : List String → String
  | [] => ""
  | [s] => s
  | s :: t :: rest => s ++ sep ++ joinSep sep (t :: rest)

/-! ### Data model -/

/-- JSON-ish runtime values carried by the `input` / `expected` fields
of a test case (stored as `jsonb` in `shared/schema.ts` and treated as
`any` in routes.ts). -/
inductive JsValue : Type
  | str (s : String)
  | num (n : Int)
  | bool (b : Bool)
  | null
  | arr (elems : List JsValue)

mutual

/-- `String(v)` of JavaScript (array elements that are `null` render
empty inside a join, per `Array.prototype.toString`). -/
def jsToString : JsValue → String
  | .str s => s
  | .num n => toString n
  | .bool b => if b then "true" else "false"
  | .null => "null"
  | .arr vs => joinSep "," (jsJoinParts vs)

/-- The element strings of `Array.prototype.toString`'s join. -/
def jsJoinParts : List JsValue → List String
  | [] => []
  | JsValue.null :: vs => "" :: jsJoinParts vs
  | v :: vs => jsToString v :: jsJoinParts vs

end

/-- One test case: `{ input: any, expected: any }`. -/
structure TestCase where
  input : JsValue
  expected : JsValue

/-- One element of the `test_results` array both handlers return
(routes.ts lines 346-353 and 448-455). -/
structure CaseResult where
  test_case : Nat
  passed : Bool
  input : JsValue
  expected : JsValue
  actual : Option JsValue
  error : Option String

/-- The JSON body `POST /api/execute-code` responds with
(routes.ts lines 343-356). -/
structure ExecResult where
  success : Bool
  execution_time : Int
  test_results : List CaseResult
  output : String
  error : Option String

/-- The `progress` object `POST /api/submit-solution` responds with
(routes.ts lines 529-533). -/
structure Progress where
  is_completed : Bool
  attempts : Nat
  best_time : Option Int

/-- The JSON body `POST /api/submit-solution` responds with
(routes.ts lines 523-534). -/
structure SubmitResult where
  success : Bool
  execution_time : Int
  test_results : List CaseResult
  output : String
  error : Option String
  progress : Progress

/-- The fields of a problem row that the submit handler reads
(`problemData.title` at routes.ts line 407, `problemData.testCases` at
line 447). -/
structure Problem where
  title : String
  testCases : List TestCase

/-! ### SyntaxChecker (routes.ts lines 220-229 and 377-383) -/

/-- Remediation message for the `let ` marker (identical in both
handlers). -/
def letMsg : String :=
  "Python uses variable assignment without \x27let\x27 keyword. Use: name = \"value\""

/-- Remediation message for `const ` in `/api/execute-code`. -/
def constMsg : String :=
  "Python doesn\x27t use \x27const\x27. Use: variable = value"

/-- Remediation message for `var ` in `/api/execute-code`. -/
def varMsg : String :=
  "Python doesn\x27t use \x27var\x27. Use: variable = value"

/-- Combined `const `/`var ` message in `/api/submit-solution`. -/
def constVarMsg : String :=
  "Python doesn\x27t use \x27const\x27 or \x27var\x27. Use: variable = value"

/-- The `syntaxErrors` list built by `/api/execute-code`
(routes.ts lines 220-229): one push per marker found, in the fixed
order `let `, `const `, `var `. -/
def execViolations (code : String) : List String :=
  (if jsIncludes code "let " then [letMsg] else []) ++
  (if jsIncludes code "const " then [constMsg] else []) ++
  (if jsIncludes code "var " then [varMsg] else [])

/-- The `syntaxErrors` list built by `/api/submit-solution`
(routes.ts lines 377-383): `let ` first, then a single combined push
when `const ` or `var ` occurs. -/
def submitViolations (code : String) : List String :=
  (if jsIncludes code "let " then [letMsg] else []) ++
  (if jsIncludes code "const " || jsIncludes code "var " then [constVarMsg] else [])

/-! ### StructuralValidator (routes.ts lines 231-232 and 399-400) -/

/-- `code.includes('def ')`. -/
def hasFunctionDef (code : String) : Bool :=
  jsIncludes code "def "

/-- `code.includes('return')`. -/
def hasReturnStmt (code : String) : Bool :=
  jsIncludes code "return"

/-! ### ContentValidator -/

/-- Result of the problem-specific content validation: the `valid`
flag together with the pushed error list.  In the source the flag is
set to `false` exactly when a message is pushed, so `valid` is the
emptiness of `errors`. -/
structure ContentCheck where
  valid : Bool
  errors : List String

/-- Is the `name`/`city`/`profession` binding missing or blank?
Models `!m || m[1].trim() === ''` for the quoted-binding regexes. -/
def badQuoted (key : String) (code : String) : Bool :=
  match findQuoted key.data code.data with
  | none => true
  | some g => trimIsEmpty g

/-- Is the `age` binding missing or non-positive?  Models
`!ageMatch || parseInt(ageMatch[1]) <= 0` (the capture is a digit run,
so `parseInt` of it is a natural number). -/
def badAge (code : String) : Bool :=
  match findDigits "age".data code.data with
  | none => true
  | some ds => decide (digitsToNat ds ≤ 0)

/-- The four business-card checks shared by both handlers, with the
handler's own four messages (pushed in the fixed order name, age,
city, profession — routes.ts lines 246-261 and 413-428). -/
def businessCardErrors (code : String) (nameE ageE cityE profE : String) : List String :=
  (if badQuoted "name" code then [nameE] else []) ++
  (if badAge code then [ageE] else []) ++
  (if badQuoted "city" code then [cityE] else []) ++
  (if badQuoted "profession" code then [profE] else [])

/-- Content validation of `/api/execute-code` (routes.ts lines
236-262): the business-card rule fires when the code mentions
`create_business_card`; any other code passes trivially. -/
def execContent (code : String) : ContentCheck :=
  if jsIncludes code "create_business_card" then
    let errs := businessCardErrors code
      "Name must be a non-empty string"
      "Age must be a positive number"
      "City must be a non-empty string"
      "Profession must be a non-empty string"
    { valid := errs.isEmpty, errors := errs }
  else
    { valid := true, errors := [] }

/-- Content validation of `/api/submit-solution` (routes.ts lines
404-429): the business-card rule fires when the problem's title is
`Personal Information Card`; any other problem passes trivially. -/
def submitContent (title : String) (code : String) : ContentCheck :=
  if title = "Personal Information Card" then
    let errs := businessCardErrors code
      "Name variable must be assigned a non-empty string value"
      "Age variable must be assigned a positive number"
      "City variable must be assigned a non-empty string value"
      "Profession variable must be assigned a non-empty string value"
    { valid := errs.isEmpty, errors := errs }
  else
    { valid := true, errors := [] }

/-! ### OutcomeSynthesizer: transcript templates

The template-literal constants below are the fixed pieces of the four
console transcripts, copied byte-for-byte from routes.ts (the pieces
between the `${...}` interpolation holes). -/

/-- Success-console template up to the function name (shared verbatim by routes.ts lines 301-304 and 478-481) -/
def okP0 : String :=
  "\n┌─ Python Console ─────────────────────────────────┐\n│                                                  │\n│  >>> "

/-- Success-console template between the function name and the rendered result (lines 304-305 and 481-482) -/
def okP1 : String :=
  "()                           │\n│  "

/-- Rest of the `/api/execute-code` success template up to the second rendered result (lines 305-312) -/
def execOkP2 : String :=
  "                                │\n│                                                  │\n└──────────────────────────────────────────────────┘\n\n    ✅ Execution Successful\n    \n    Your function ran without errors and returned:\n    "

/-- Tail of the `/api/execute-code` success template (lines 312-314) -/
def execOkP3 : String :=
  "\n    \n    Ready to submit your solution!"

/-- Rest of the `/api/submit-solution` success template up to the execution time (lines 482-494) -/
def submitOkP2 : String :=
  "                                │\n│                                                  │\n└──────────────────────────────────────────────────┘\n\n    🎉 Problem Completed Successfully!\n    \n    Test Results:\n    ✅ Function definition: Complete\n    ✅ Return statement: Present  \n    ✅ Variable assignments: Valid\n    ✅ All test cases: Passed\n    \n    Execution time: "

/-- Tail of the `/api/submit-solution` success template (lines 494-499) -/
def submitOkP3 : String :=
  "ms\n    \n    Great work! You can now:\n    • Navigate to the next problem\n    • Return to dashboard to see progress\n    • Continue your Python journey"

/-- Failure-console template up to the primary error (shared verbatim by lines 321-325 and 501-505) -/
def failP0 : String :=
  "\n┌─ Python Console ─────────────────────────────────┐\n│                                                  │\n│  >>> Running your code...                       │\n│  Error: "

/-- `/api/execute-code` failure template between the primary error and the checklist (lines 325-332) -/
def execFailP1 : String :=
  "                          │\n│                                                  │\n└──────────────────────────────────────────────────┘\n\n    ❌ Execution Failed\n    \n    Code Analysis:\n    "

/-- `/api/submit-solution` failure template between the primary error and the checklist (lines 505-512) -/
def submitFailP1 : String :=
  "                          │\n│                                                  │\n└──────────────────────────────────────────────────┘\n\n    ❌ Submission Failed\n    \n    Code Analysis:\n    "

/-- Separator between two checklist lines (lines 332-335 and 512-515) -/
def failSep : String :=
  "\n    "

/-- Failure template between the checklist and the repeated primary error (lines 335-338 and 515-518) -/
def failP5 : String :=
  "\n    \n    Issue Details:\n    "

/-- Tail of the `/api/execute-code` failure template (lines 338-340) -/
def execFailP6 : String :=
  "\n    \n    Fix the above issues and try again."

/-- Tail of the `/api/submit-solution` failure template (lines 518-520) -/
def submitFailP6 : String :=
  "\n    \n    Fix the above issues and try submitting again."

/-- Checklist line for the function-definition predicate
(`!hasFunction ? ... : ...`, routes.ts lines 332 and 512). -/
def fnCheckLine (hasFn : Bool) : String :=
  if !hasFn then "    ❌ Function definition: Missing"
  else "    ✅ Function definition: Complete"

/-- Checklist line for the return-statement predicate (lines 333 and 513). -/
def retCheckLine (hasRet : Bool) : String :=
  if !hasRet then "    ❌ Return statement: Missing"
  else "    ✅ Return statement: Present"

/-- Checklist line for the `hasValidPythonSyntax` predicate (lines 334 and 514). -/
def synCheckLine (synOk : Bool) : String :=
  if !synOk then "    ❌ Python syntax: Invalid"
  else "    ✅ Python syntax: Valid"

/-- Checklist line for the content-validation predicate (lines 335 and 515). -/
def valCheckLine (contentOk : Bool) : String :=
  if !contentOk then "    ❌ Variable assignments: Invalid"
  else "    ✅ Variable assignments: Valid"

/-! ### OutcomeSynthesizer: rendered values -/

/-- Declared function name extracted by `code.match(/def\s+(\w+)/)` with
the `'your_function'` fallback (routes.ts lines 270-271 and 460-461). -/
def jsFunctionName (code : String) : String :=
  match findFunc code.data with
  | some w => String.mk w
  | none => "your_function"

/-- The business-card tuple display: re-extracts the four bindings with
`'unknown'` / `0` fallbacks and renders
`('name', age, 'city', 'profession')` (routes.ts lines 276-288 and
464-476). -/
def bcResultDisplay (code : String) : String :=
  let nm := match findQuoted "name".data code.data with
    | some g => String.mk g
    | none => "unknown"
  let ag : Nat := match findDigits "age".data code.data with
    | some ds => digitsToNat ds
    | none => 0
  let ct := match findQuoted "city".data code.data with
    | some g => String.mk g
    | none => "unknown"
  let pf := match findQuoted "profession".data code.data with
    | some g => String.mk g
    | none => "unknown"
  "(\x27" ++ nm ++ "\x27, " ++ toString ag ++ ", \x27" ++ ct ++ "\x27, \x27" ++ pf ++ "\x27)"

/-- One element of the expected-value rendering inside an array:
`typeof val === 'string' ? `'${val}'` : val` joined by `', '`
(routes.ts lines 293-295). -/
def displayElem : JsValue → String
  | .str s => "\x27" ++ s ++ "\x27"
  | v => jsToString v

/-- Rendering of `test_cases[0]?.expected` for problems other than the
business card (routes.ts lines 291-298); `none` is JS `undefined`,
stringified by the non-string branch. -/
def displayExpected : Option JsValue → String
  | some (JsValue.arr vs) => "(" ++ joinSep ", " (vs.map displayElem) ++ ")"
  | some (JsValue.str s) => "\x27" ++ s ++ "\x27"
  | some v => jsToString v
  | none => "undefined"

/-- `resultDisplay` of `/api/execute-code` (routes.ts lines 274-299). -/
def execResultDisplay (code : String) (test_cases : List TestCase) : String :=
  if jsFunctionName code = "create_business_card" then bcResultDisplay code
  else displayExpected ((test_cases.head?).map TestCase.expected)

/-- Text a JS template literal renders for a possibly-null string
(`${errorMessage}` prints `null` when the variable is null). -/
def optMsgText : Option String → String
  | some m => m
  | none => "null"

/-! ### The `/api/execute-code` handler (routes.ts lines 215-369) -/

/-- The overall verdict of `/api/execute-code` (routes.ts line 264):
`hasFunction && hasReturn && hasValidPythonSyntax && contentValidation`,
with `hasValidPythonSyntax = (syntaxErrors.length === 0)` (line 233). -/
def execSuccess (code : String) : Bool :=
  hasFunctionDef code && hasReturnStmt code &&
    (execViolations code).isEmpty && (execContent code).valid

/-- The `primaryError` ternary chain of `/api/execute-code`
(routes.ts lines 316-319): syntax violations, then content errors,
then missing function, then missing return, then `'Unknown error'`. -/
def execPrimaryError (code : String) : String :=
  if (execViolations code).length > 0 then (execViolations code).headD ""
  else if (execContent code).errors.length > 0 then (execContent code).errors.headD ""
  else if !(hasFunctionDef code) then "Missing function definition"
  else if !(hasReturnStmt code) then "Missing return statement"
  else "Unknown error"

/-- The `outputMessage` of `/api/execute-code` (routes.ts lines
267-341). -/
def execOutput (code : String) (test_cases : List TestCase) : String :=
  if execSuccess code then
    okP0 ++ jsFunctionName code ++ okP1 ++ execResultDisplay code test_cases ++
      execOkP2 ++ execResultDisplay code test_cases ++ execOkP3
  else
    failP0 ++ execPrimaryError code ++ execFailP1 ++
      fnCheckLine (hasFunctionDef code) ++ failSep ++
      retCheckLine (hasReturnStmt code) ++ failSep ++
      synCheckLine (execViolations code).isEmpty ++ failSep ++
      valCheckLine (execContent code).valid ++ failP5 ++
      execPrimaryError code ++ execFailP6

/-- The `test_results` array of `/api/execute-code` (routes.ts lines
346-353): 1-based index, `passed = success` uniformly,
`actual = expected` only on success, and a per-case `error` that is
the first syntax violation or the fixed incompleteness literal. -/
def execCaseResults (code : String) (test_cases : List TestCase) : List CaseResult :=
  test_cases.enum.map fun p =>
    { test_case := p.1 + 1
      passed := execSuccess code
      input := p.2.input
      expected := p.2.expected
      actual := if execSuccess code then some p.2.expected else none
      error := if execSuccess code then none
               else if (execViolations code).length > 0 then
                 some ((execViolations code).headD "")
               else some "Function implementation incomplete" }

/-- `Math.floor(Math.random() * 100) + 50` with `Math.random()`
modelled as the rational `rand` (routes.ts lines 345 and 444). -/
def jsExecutionTime (rand : ℚ) : Int :=
  Int.floor (rand * 100) + 50

/-- The whole `POST /api/execute-code` handler (routes.ts lines
215-369) on a request body `{ code, test_cases }`: the response JSON
of the non-throwing path.  The top-level `error` field is
`syntaxErrors.join('. ')` when there is a syntax violation and `null`
otherwise (line 355). -/
def executeCode (code : String) (test_cases : List TestCase) (rand : ℚ) : ExecResult :=
  { success := execSuccess code
    execution_time := jsExecutionTime rand
    test_results := execCaseResults code test_cases
    output := execOutput code test_cases
    error := if (execViolations code).length > 0 then
               some (joinSep ". " (execViolations code))
             else none }

/-! ### The `/api/submit-solution` handler (routes.ts lines 372-539) -/

/-- The overall verdict `allPassed` of `/api/submit-solution`
(routes.ts line 431). -/
def submitSuccess (title code : String) : Bool :=
  hasFunctionDef code && hasReturnStmt code &&
    (submitViolations code).isEmpty && (submitContent title code).valid

/-- The `errorMessage` if/else chain of `/api/submit-solution`
(routes.ts lines 433-442): starts as `null`; syntax violations, then
missing function, then missing return, then validation errors. -/
def submitErrMsg (title code : String) : Option String :=
  if (submitViolations code).length > 0 then
    some ((submitViolations code).headD "")
  else if !(hasFunctionDef code) then
    some "Missing function definition. Use \x27def function_name():\x27"
  else if !(hasReturnStmt code) then
    some "Missing return statement"
  else if (submitContent title code).errors.length > 0 then
    some ((submitContent title code).errors.headD "")
  else none

/-- The `testResults` array of `/api/submit-solution` (routes.ts lines
448-455), built over the problem's own stored test cases; the per-case
`error` is `allPassed ? null : errorMessage`. -/
def submitCaseResults (title code : String) (testCases : List TestCase) : List CaseResult :=
  testCases.enum.map fun p =>
    { test_case := p.1 + 1
      passed := submitSuccess title code
      input := p.2.input
      expected := p.2.expected
      actual := if submitSuccess title code then some p.2.expected else none
      error := if submitSuccess title code then none else submitErrMsg title code }

/-- The `outputMessage` of `/api/submit-solution` (routes.ts lines
457-521).  The success branch always renders the business-card tuple
(lines 464-476) and embeds the execution time. -/
def submitOutput (title code : String) (executionTime : Int) : String :=
  if submitSuccess title code then
    okP0 ++ jsFunctionName code ++ okP1 ++ bcResultDisplay code ++
      submitOkP2 ++ toString executionTime ++ submitOkP3
  else
    failP0 ++ optMsgText (submitErrMsg title code) ++ submitFailP1 ++
      fnCheckLine (hasFunctionDef code) ++ failSep ++
      retCheckLine (hasReturnStmt code) ++ failSep ++
      synCheckLine (submitViolations code).isEmpty ++ failSep ++
      valCheckLine (submitContent title code).valid ++ failP5 ++
      optMsgText (submitErrMsg title code) ++ submitFailP6

/-- The whole `POST /api/submit-solution` handler (routes.ts lines
372-539) for a request whose `problem_id` resolves to `problem` (the
404 branch for an unknown id is not modelled): the response JSON of
lines 523-534, including the hard-coded progress object
`{ is_completed: allPassed, attempts: 1, best_time: allPassed ?
executionTime : null }` of lines 529-533. -/
def submitSolution (problem : Problem) (code : String) (rand : ℚ) : SubmitResult :=
  let executionTime := jsExecutionTime rand
  { success := submitSuccess problem.title code
    execution_time := executionTime
    test_results := submitCaseResults problem.title code problem.testCases
    output := submitOutput problem.title code executionTime
    error := if submitSuccess problem.title code then none
             else submitErrMsg problem.title code
    progress := { is_completed := submitSuccess problem.title code
                  attempts := 1
                  best_time := if submitSuccess problem.title code then some executionTime
                               else none } }

/-! ### Concrete inputs used by the scenario theorems and witnesses -/

/-- The passing business-card scenario code (spec §8). -/
def scenarioCode : String :=
  "def create_business_card():\n  name = \"Ann\"\n  age = 30\n  city = \"Linz\"\n  profession = \"Engineer\"\n  return (name, age, city, profession)"

/-- The same scenario with the binding `age = -1`. -/
def negAgeCode : String :=
  "def create_business_card():\n  name = \"Ann\"\n  age = -1\n  city = \"Linz\"\n  profession = \"Engineer\"\n  return (name, age, city, profession)"

/-- A structurally complete snippet containing `let x = 5`. -/
def letCode : String :=
  "def f():\n  let x = 5\n  return x"

/-- A business-card problem row: the title is the one the submit
handler's content validation keys on. -/
def bcProblem : Problem :=
  { title := "Personal Information Card"
    testCases := [{ input := JsValue.null
                    expected := JsValue.arr [JsValue.str "Ann", JsValue.num 30,
                                             JsValue.str "Linz", JsValue.str "Engineer"] }] }

/-- The tuple the scenario's transcript must contain. -/
def scenarioTuple : String :=
  "(\x27Ann\x27, 30, \x27Linz\x27, \x27Engineer\x27)"

/-- A small test case for witness instantiations. -/
def wCase : TestCase :=
  { input := JsValue.num 1, expected := JsValue.num 2 }

/-- The per-case result `/api/execute-code` produces for `wCase` and
the failing code `"x"` (no function, no return, no violations). -/
def wExecRes : CaseResult :=
  { test_case := 1
    passed := false
    input := JsValue.num 1
    expected := JsValue.num 2
    actual := none
    error := some "Function implementation incomplete" }

/-- Structurally complete code with none of the business-card
bindings: against the business-card problem the submit handler fails
it on content while the execute handler (whose content rule keys on
the `create_business_card` substring, absent here) passes it. -/
def retOnlyCode : String :=
  "def f():\n  return 1"

/-- The per-case result `/api/submit-solution` produces for
`retOnlyCode` against `bcProblem`: the selected primary error is the
first content-validation message. -/
def wSubmitRes : CaseResult :=
  { test_case := 1
    passed := false
    input := JsValue.null
    expected := JsValue.arr [JsValue.str "Ann", JsValue.num 30,
                             JsValue.str "Linz", JsValue.str "Engineer"]
    actual := none
    error := some "Name variable must be assigned a non-empty string value" }

/-- C2's claimed precedence for the `/api/execute-code` handler,
written from the spec's words ("syntax violations → missing function
definition → missing return statement → content-validation errors →
fallback literal Unknown error") with that handler's message strings,
for comparison against the handler's actual selection. -/
def specClaimedOrder (code : String) : String :=
  if (execViolations code).length > 0 then (execViolations code).headD ""
  else if !(hasFunctionDef code) then "Missing function definition"
  else if !(hasReturnStmt code) then "Missing return statement"
  else if (execContent code).errors.length > 0 then (execContent code).errors.headD ""
  else "Unknown error"

/-- C3's claimed progress semantics, stated as the spec writes it:
`attempts` increments the previously recorded attempt count and
`isCompleted` is this submission's success OR the previously recorded
completion flag. -/
def stickyClaim (prevAttempts : Nat) (prevCompleted : Bool)
    (p : Problem) (code : String) (rand : ℚ) : Prop :=
  (submitSolution p code rand).progress.attempts = prevAttempts + 1 ∧
  (submitSolution p code rand).progress.is_completed =
    ((submitSolution p code rand).success || prevCompleted)

/-! ### Helper lemmas -/

/-- Both content validators set `valid` to the emptiness of the error
list they build. -/
theorem content_valid_eq_isEmpty (title code : String) :
    (execContent code).valid = (execContent code).errors.isEmpty ∧
    (submitContent title code).valid = (submitContent title code).errors.isEmpty := by
  constructor
  · unfold execContent
    split <;> rfl
  · unfold submitContent
    split <;> rfl

/-- When `allPassed` is false, the submit handler's `errorMessage`
if/else chain always produces a message: each of the four failing
predicates has a branch, so the initial `null` survives only on
success. -/
theorem submitErrMsg_isSome_of_failure (title code : String)
    (h : submitSuccess title code = false) :
    ∃ m, submitErrMsg title code = some m := by
  unfold submitErrMsg
  by_cases hv : (submitViolations code).length > 0
  · rw [if_pos hv]; exact ⟨_, rfl⟩
  · rw [if_neg hv]
    by_cases hf : hasFunctionDef code
    · rw [if_neg (by simp [hf])]
      by_cases hr : hasReturnStmt code
      · rw [if_neg (by simp [hr])]
        by_cases hc : (submitContent title code).errors.length > 0
        · rw [if_pos hc]; exact ⟨_, rfl⟩
        · exfalso
          have hvnil : submitViolations code = [] := by
            cases hvl : submitViolations code with
            | nil => rfl
            | cons a l => rw [hvl] at hv; simp at hv
          have hcnil : (submitContent title code).errors = [] := by
            cases hcl : (submitContent title code).errors with
            | nil => rfl
            | cons a l => rw [hcl] at hc; simp at hc
          have hvalid : (submitContent title code).valid = true := by
            rw [(content_valid_eq_isEmpty title code).2, hcnil]; rfl
          rw [submitSuccess, hf, hr, hvnil, hvalid] at h
          simp at h
      · rw [if_pos (by simp [hr])]; exact ⟨_, rfl⟩
    · rw [if_pos (by simp [hf])]; exact ⟨_, rfl⟩

/-! ### The claims -/

/-- C1: in both handlers the verdict is true exactly when all four
predicates hold — the function-definition marker, the return marker,
an empty syntax-violation list, and a passing content validation; no
predicate can compensate for another. -/
theorem C1_verdict_formula (code : String) (tcs : List TestCase) (p : Problem) (q : ℚ) :
    ((executeCode code tcs q).success = true ↔
      (hasFunctionDef code = true ∧ hasReturnStmt code = true ∧
       execViolations code = [] ∧ (execContent code).valid = true)) ∧
    ((submitSolution p code q).success = true ↔
      (hasFunctionDef code = true ∧ hasReturnStmt code = true ∧
       submitViolations code = [] ∧ (submitContent p.title code).valid = true)) := by
  constructor
  · show (execSuccess code = true ↔ _)
    unfold execSuccess
    simp [List.isEmpty_iff, and_assoc]
  · show (submitSuccess p.title code = true ↔ _)
    unfold submitSuccess
    simp [List.isEmpty_iff, and_assoc]

/-- C3 counterexample: the handler returns the hard-coded progress
`{ attempts: 1, is_completed: allPassed }`; with previously recorded
progress (5 attempts, completed) and a failing resubmission, the
claimed `attempts = 5 + 1` and sticky `isCompleted = true` both fail. -/
theorem C3_counterexample : ¬ stickyClaim 5 true bcProblem "x" 0 := by
  intro h
  have h1 := h.1
  simp [submitSolution] at h1

/-- C3 amended: the ProgressUpdate returned by a submission always has
`attempts = 1` and `is_completed` equal to this submission's success,
regardless of any previously recorded progress — completion is not
sticky and attempts do not accumulate. -/
theorem C3_progress_hardcoded (p : Problem) (code : String) (q : ℚ) :
    (submitSolution p code q).progress.attempts = 1 ∧
    (submitSolution p code q).progress.is_completed = (submitSolution p code q).success :=
  ⟨rfl, rfl⟩

/-- C4: in both handlers every per-case result carries the
whole-submission verdict as its `passed` flag, and `actual` is the
case's `expected` on success and null otherwise — no partial credit. -/
theorem C4_all_or_nothing (code : String) (tcs : List TestCase) (p : Problem) (q : ℚ) :
    (∀ r ∈ (executeCode code tcs q).test_results,
        r.passed = (executeCode code tcs q).success ∧
        r.actual = (if (executeCode code tcs q).success = true then some r.expected else none)) ∧
    (∀ r ∈ (submitSolution p code q).test_results,
        r.passed = (submitSolution p code q).success ∧
        r.actual = (if (submitSolution p code q).success = true then some r.expected else none)) := by
  constructor
  · intro r hr
    obtain ⟨⟨i, tc⟩, _, rfl⟩ := List.mem_map.mp hr
    exact ⟨rfl, rfl⟩
  · intro r hr
    obtain ⟨⟨i, tc⟩, _, rfl⟩ := List.mem_map.mp hr
    exact ⟨rfl, rfl⟩

/-- C4 witness: the single per-case result of running the failing code
`"x"` has `passed = success = false` and a null `actual`. -/
theorem C4_all_or_nothing_witness :
    wExecRes.passed = (executeCode "x" [wCase] 0).success ∧
    wExecRes.actual = (if (executeCode "x" [wCase] 0).success = true
                       then some wExecRes.expected else none) := by
  have hlist : (executeCode "x" [wCase] 0).test_results = [wExecRes] := rfl
  have hmem : wExecRes ∈ (executeCode "x" [wCase] 0).test_results := by
    rw [hlist]; exact List.mem_singleton.mpr rfl
  exact (C4_all_or_nothing "x" [wCase] bcProblem 0).1 wExecRes hmem

set_option maxRecDepth 8192 in
/-- C2 counterexample: on code that triggers a content error while
also missing the function marker (`"create_business_card"` alone),
`/api/execute-code` surfaces the content error, not the claimed
`Missing function definition`: its transcript carries the content
message and never the structural one, so the single claimed precedence
order (syntax → function → return → content → fallback) does not
govern both handlers. -/
theorem C2_counterexample :
    (executeCode "create_business_card" [] 0).success = false ∧
    execPrimaryError "create_business_card" = "Name must be a non-empty string" ∧
    specClaimedOrder "create_business_card" = "Missing function definition" ∧
    execPrimaryError "create_business_card" ≠ specClaimedOrder "create_business_card" ∧
    jsIncludes (executeCode "create_business_card" [] 0).output
      "Name must be a non-empty string" = true ∧
    jsIncludes (executeCode "create_business_card" [] 0).output
      "Missing function definition" = false := by
  decide

/-- C2 amended: the fixed precedence differs between the handlers.
`/api/submit-solution` selects first syntax violation → missing
function definition → missing return statement → first
content-validation error (its fallback is null, never reached on a
failure); `/api/execute-code` selects first syntax violation → first
content-validation error → missing function definition → missing
return statement → the literal `Unknown error`, and its failing
transcript embeds that selected primary error. -/
theorem C2_precedence_orders (code : String) (tcs : List TestCase) (p : Problem) (q : ℚ) :
    (submitViolations code ≠ [] →
      (submitSolution p code q).error = some ((submitViolations code).headD "")) ∧
    (submitViolations code = [] → hasFunctionDef code = false →
      (submitSolution p code q).error =
        some "Missing function definition. Use \x27def function_name():\x27") ∧
    (submitViolations code = [] → hasFunctionDef code = true → hasReturnStmt code = false →
      (submitSolution p code q).error = some "Missing return statement") ∧
    (submitViolations code = [] → hasFunctionDef code = true → hasReturnStmt code = true →
      (submitContent p.title code).errors ≠ [] →
      (submitSolution p code q).error =
        some (((submitContent p.title code).errors).headD "")) ∧
    (execViolations code ≠ [] →
      execPrimaryError code = (execViolations code).headD "") ∧
    (execViolations code = [] → (execContent code).errors ≠ [] →
      execPrimaryError code = ((execContent code).errors).headD "") ∧
    (execViolations code = [] → (execContent code).errors = [] → hasFunctionDef code = false →
      execPrimaryError code = "Missing function definition") ∧
    (execViolations code = [] → (execContent code).errors = [] → hasFunctionDef code = true →
      hasReturnStmt code = false → execPrimaryError code = "Missing return statement") ∧
    (execSuccess code = false →
      ∃ a b, (executeCode code tcs q).output = a ++ execPrimaryError code ++ b) := by
  have herr : (submitSolution p code q).error =
      if submitSuccess p.title code = true then none else submitErrMsg p.title code := rfl
  refine ⟨?_, ?_, ?_, ?_, ?_, ?_, ?_, ?_, ?_⟩
  · intro hv
    obtain ⟨m, rest, hcons⟩ : ∃ m rest, submitViolations code = m :: rest := by
      cases hvl : submitViolations code with
      | nil => exact absurd hvl hv
      | cons a l => exact ⟨a, l, rfl⟩
    rw [herr, if_neg (by simp [submitSuccess, hcons])]
    unfold submitErrMsg
    rw [if_pos (by rw [hcons]; simp)]
  · intro hv hf
    rw [herr, if_neg (by simp [submitSuccess, hf])]
    unfold submitErrMsg
    rw [if_neg (by rw [hv]; simp), if_pos (by simp [hf])]
  · intro hv hf hr
    rw [herr, if_neg (by simp [submitSuccess, hr])]
    unfold submitErrMsg
    rw [if_neg (by rw [hv]; simp), if_neg (by simp [hf]), if_pos (by simp [hr])]
  · intro hv hf hr hc
    have hcpos : (submitContent p.title code).errors.length > 0 :=
      List.length_pos.mpr hc
    have hvalid : (submitContent p.title code).valid = false := by
      rw [(content_valid_eq_isEmpty p.title code).2]
      cases hcl : (submitContent p.title code).errors with
      | nil => exact absurd hcl hc
      | cons a l => rfl
    rw [herr, if_neg (by simp [submitSuccess, hvalid])]
    unfold submitErrMsg
    rw [if_neg (by rw [hv]; simp), if_neg (by simp [hf]), if_neg (by simp [hr]),
      if_pos hcpos]
  · intro hv
    unfold execPrimaryError
    rw [if_pos (List.length_pos.mpr hv)]
  · intro hv hc
    unfold execPrimaryError
    rw [if_neg (by rw [hv]; simp), if_pos (List.length_pos.mpr hc)]
  · intro hv hc hf
    unfold execPrimaryError
    rw [if_neg (by rw [hv]; simp), if_neg (by rw [hc]; simp), if_pos (by simp [hf])]
  · intro hv hc hf hr
    unfold execPrimaryError
    rw [if_neg (by rw [hv]; simp), if_neg (by rw [hc]; simp),
      if_neg (by simp [hf]), if_pos (by simp [hr])]
  · intro hs
    refine ⟨failP0,
      execFailP1 ++ fnCheckLine (hasFunctionDef code) ++ failSep ++
        retCheckLine (hasReturnStmt code) ++ failSep ++
        synCheckLine (execViolations code).isEmpty ++ failSep ++
        valCheckLine (execContent code).valid ++ failP5 ++
        execPrimaryError code ++ execFailP6, ?_⟩
    show execOutput code tcs = _
    unfold execOutput
    rw [if_neg (by simp [hs])]
    simp only [String.append_assoc]

/-- C2 witness: on code with a function marker but no return marker
and no violations, the submit handler's precedence selects the
missing-return message. -/
theorem C2_precedence_orders_witness :
    (submitSolution bcProblem "def f(): x" 0).error = some "Missing return statement" :=
  (C2_precedence_orders "def f(): x" [] bcProblem 0).2.2.1 (by decide) (by decide) (by decide)

/-- C5 counterexample: the failing submission `"x"` (missing function
marker, no syntax violations) gets a null top-level `error` from
`/api/execute-code`, so a validation failure is not always reported
with a non-null error string. -/
theorem C5_counterexample :
    (executeCode "x" [] 0).success = false ∧
    (executeCode "x" [] 0).error = none := by
  decide

/-- C5 amended: `/api/submit-solution` does accompany every failure
with a single non-null primary error, but `/api/execute-code`'s
top-level `error` is the `'. '`-join of the syntax violations when any
exist and null otherwise — failures without syntax violations carry a
null top-level error, and multiple violations are concatenated. -/
theorem C5_top_level_error (code : String) (tcs : List TestCase) (p : Problem) (q : ℚ) :
    ((submitSolution p code q).success = false →
      ∃ m, (submitSolution p code q).error = some m) ∧
    (executeCode code tcs q).error =
      (if execViolations code = [] then none
       else some (joinSep ". " (execViolations code))) := by
  constructor
  · intro hs
    have hfail : submitSuccess p.title code = false := hs
    obtain ⟨m, hm⟩ := submitErrMsg_isSome_of_failure p.title code hfail
    refine ⟨m, ?_⟩
    show (if submitSuccess p.title code = true then none else submitErrMsg p.title code) = some m
    rw [if_neg (by simp [hfail]), hm]
  · show (if (execViolations code).length > 0 then some (joinSep ". " (execViolations code))
          else none) = _
    cases hvl : execViolations code with
    | nil => simp
    | cons a l => simp

/-- C5 witness: the failing submission `"x"` against the business-card
problem carries a non-null submit-side error. -/
theorem C5_top_level_error_witness :
    ∃ m, (submitSolution bcProblem "x" 0).error = some m :=
  (C5_top_level_error "x" [] bcProblem 0).1 (by decide)

/-- A list with a member is not empty. -/
theorem isEmpty_false_of_mem {α : Type} {x : α} {l : List α} (h : x ∈ l) :
    l.isEmpty = false := by
  cases l with
  | nil => exact absurd h (List.not_mem_nil x)
  | cons a t => rfl

set_option maxRecDepth 8192 in
/-- C6: the passing business-card scenario — `def
create_business_card():` with bindings Ann / 30 / Linz / Engineer and a
tuple return — yields verdict true in both handlers and a transcript
containing the rendered tuple. -/
theorem C6_scenario_passes :
    (executeCode scenarioCode bcProblem.testCases 0).success = true ∧
    jsIncludes (executeCode scenarioCode bcProblem.testCases 0).output scenarioTuple = true ∧
    (submitSolution bcProblem scenarioCode 0).success = true ∧
    jsIncludes (submitSolution bcProblem scenarioCode 0).output scenarioTuple = true := by
  decide

set_option maxRecDepth 8192 in
/-- C7: the scenario with `age = -1` fails in both handlers, surfaces
the positive-age message as the primary error, and marks every
per-case result failed.  In general, any business-card submission
whose age binding does not match the digit pattern or parses to a
non-positive value fails both content validators (the captured digits
are a natural number, so non-positive means zero). -/
theorem C7_age_rejection :
    ((executeCode negAgeCode bcProblem.testCases 0).success = false ∧
     execPrimaryError negAgeCode = "Age must be a positive number" ∧
     (∀ r ∈ (executeCode negAgeCode bcProblem.testCases 0).test_results, r.passed = false) ∧
     (submitSolution bcProblem negAgeCode 0).error =
       some "Age variable must be assigned a positive number" ∧
     (∀ r ∈ (submitSolution bcProblem negAgeCode 0).test_results, r.passed = false)) ∧
    (∀ code : String, jsIncludes code "create_business_card" = true →
      (∀ ds, findDigits "age".data code.data = some ds → digitsToNat ds = 0) →
      (execContent code).valid = false ∧
      (submitContent "Personal Information Card" code).valid = false) := by
  refine ⟨by decide, ?_⟩
  intro code hbc hage
  have hbad : badAge code = true := by
    unfold badAge
    cases hfd : findDigits "age".data code.data with
    | none => rfl
    | some ds => simp [hage ds hfd]
  constructor
  · have hmem : "Age must be a positive number" ∈ businessCardErrors code
        "Name must be a non-empty string" "Age must be a positive number"
        "City must be a non-empty string" "Profession must be a non-empty string" := by
      unfold businessCardErrors
      rw [hbad]
      simp
    unfold execContent
    rw [if_pos hbc]
    exact isEmpty_false_of_mem hmem
  · have hmem : "Age variable must be assigned a positive number" ∈ businessCardErrors code
        "Name variable must be assigned a non-empty string value"
        "Age variable must be assigned a positive number"
        "City variable must be assigned a non-empty string value"
        "Profession variable must be assigned a non-empty string value" := by
      unfold businessCardErrors
      rw [hbad]
      simp
    unfold submitContent
    rw [if_pos rfl]
    exact isEmpty_false_of_mem hmem

/-- C7 witness: on the `age = -1` scenario code the age regex has no
match, so both content validators reject it. -/
theorem C7_age_rejection_witness :
    (execContent negAgeCode).valid = false ∧
    (submitContent "Personal Information Card" negAgeCode).valid = false :=
  C7_age_rejection.2 negAgeCode (by decide)
    (by
      intro ds h
      rw [(by decide : findDigits "age".data negAgeCode.data = none)] at h
      exact Option.noConfusion h)

/-- C8: any code containing `let ` gets a non-empty violation list in
both handlers whose first element is the fixed `let` remediation
message, and the overall verdict is false even when the function and
return markers are present. -/
theorem C8_let_violation (code : String) (tcs : List TestCase) (p : Problem) (q : ℚ)
    (h : jsIncludes code "let " = true) :
    execViolations code ≠ [] ∧
    (execViolations code).head? = some letMsg ∧
    (executeCode code tcs q).success = false ∧
    submitViolations code ≠ [] ∧
    (submitViolations code).head? = some letMsg ∧
    (submitSolution p code q).success = false := by
  obtain ⟨re, hre⟩ : ∃ re, execViolations code = letMsg :: re := by
    unfold execViolations
    rw [h]
    exact ⟨_, rfl⟩
  obtain ⟨rs, hrs⟩ : ∃ rs, submitViolations code = letMsg :: rs := by
    unfold submitViolations
    rw [h]
    exact ⟨_, rfl⟩
  refine ⟨by rw [hre]; simp, by rw [hre]; rfl, ?_, by rw [hrs]; simp, by rw [hrs]; rfl, ?_⟩
  · show execSuccess code = false
    unfold execSuccess
    rw [hre]
    simp
  · show submitSuccess p.title code = false
    unfold submitSuccess
    rw [hrs]
    simp

/-- C8 witness: structurally complete code containing `let x = 5`
triggers the `let` message first and fails both handlers. -/
theorem C8_let_violation_witness :
    (execViolations letCode).head? = some letMsg ∧
    (executeCode letCode [] 0).success = false ∧
    (submitSolution bcProblem letCode 0).success = false := by
  have h := C8_let_violation letCode [] bcProblem 0 (by decide)
  exact ⟨h.2.1, h.2.2.1, h.2.2.2.2.2⟩

/-- C9: for any `Math.random()` draw in `[0, 1)`, the execution time
reported by both handlers is an integer in `[50, 150)` milliseconds. -/
theorem C9_execution_time_range (code : String) (tcs : List TestCase) (p : Problem)
    (q : ℚ) (h0 : 0 ≤ q) (h1 : q < 1) :
    50 ≤ (executeCode code tcs q).execution_time ∧
    (executeCode code tcs q).execution_time < 150 ∧
    50 ≤ (submitSolution p code q).execution_time ∧
    (submitSolution p code q).execution_time < 150 := by
  have e1 : (executeCode code tcs q).execution_time = jsExecutionTime q := rfl
  have e2 : (submitSolution p code q).execution_time = jsExecutionTime q := rfl
  have hlo : (0 : ℤ) ≤ Int.floor (q * 100) :=
    Int.floor_nonneg.mpr (mul_nonneg h0 (by norm_num))
  have hhi : Int.floor (q * 100) < 100 := by
    refine Int.floor_lt.mpr ?_
    push_cast
    linarith
  rw [e1, e2]
  unfold jsExecutionTime
  exact ⟨by linarith, by linarith, by linarith, by linarith⟩

/-- C9 witness: the draw `1/2` is in range and yields an execution
time in `[50, 150)`. -/
theorem C9_execution_time_range_witness :
    (0 : ℚ) ≤ 1 / 2 ∧ (1 : ℚ) / 2 < 1 ∧
    50 ≤ (executeCode "x" [] (1 / 2)).execution_time ∧
    (executeCode "x" [] (1 / 2)).execution_time < 150 := by
  have h := C9_execution_time_range "x" [] bcProblem (1 / 2) (by norm_num) (by norm_num)
  exact ⟨by norm_num, by norm_num, h.1, h.2.1⟩

/-- C10: whenever `/api/execute-code` fails a submission, each of its
per-case `error` fields is the first syntax violation when one exists
and the fixed literal `Function implementation incomplete` otherwise
(never the structural or content primary error); and whenever
`/api/submit-solution` fails a submission, each of its per-case
`error` fields is exactly that handler's selected primary error
message.  Each handler's clause is conditioned only on that handler's
own verdict. -/
theorem C10_per_case_error (code : String) (tcs : List TestCase) (p : Problem) (q : ℚ) :
    (execSuccess code = false →
      ∀ r ∈ (executeCode code tcs q).test_results,
        r.error = some (if execViolations code = []
                        then "Function implementation incomplete"
                        else (execViolations code).headD "")) ∧
    (submitSuccess p.title code = false →
      ∀ r ∈ (submitSolution p code q).test_results,
        r.error = submitErrMsg p.title code) := by
  constructor
  · intro hx r hr
    obtain ⟨⟨i, tc⟩, _, rfl⟩ := List.mem_map.mp hr
    show (if execSuccess code = true then none
          else if (execViolations code).length > 0 then some ((execViolations code).headD "")
          else some "Function implementation incomplete") = _
    rw [if_neg (by simp [hx])]
    cases hvl : execViolations code with
    | nil => simp
    | cons a l => simp
  · intro hs r hr
    obtain ⟨⟨i, tc⟩, _, rfl⟩ := List.mem_map.mp hr
    show (if submitSuccess p.title code = true then none
          else submitErrMsg p.title code) = _
    rw [if_neg (by simp [hs])]

/-- C10 witness: the failing code `"x"` has no syntax violations, so
its single execute-side per-case error is the fixed incompleteness
literal; and `retOnlyCode` against the business-card problem — which
the execute handler would pass — fails the submit handler, whose
per-case error is the selected first content-validation message. -/
theorem C10_per_case_error_witness :
    (wExecRes.error = some (if execViolations "x" = []
                            then "Function implementation incomplete"
                            else (execViolations "x").headD "") ∧
     wSubmitRes.error = submitErrMsg bcProblem.title retOnlyCode) ∧
    execSuccess retOnlyCode = true := by
  have hlist : (executeCode "x" [wCase] 0).test_results = [wExecRes] := rfl
  have hmem : wExecRes ∈ (executeCode "x" [wCase] 0).test_results := by
    rw [hlist]; exact List.mem_singleton.mpr rfl
  have hlist2 : (submitSolution bcProblem retOnlyCode 0).test_results = [wSubmitRes] := rfl
  have hmem2 : wSubmitRes ∈ (submitSolution bcProblem retOnlyCode 0).test_results := by
    rw [hlist2]; exact List.mem_singleton.mpr rfl
  refine ⟨⟨?_, ?_⟩, by decide⟩
  · exact (C10_per_case_error "x" [wCase] bcProblem 0).1 (by decide) wExecRes hmem
  · exact (C10_per_case_error retOnlyCode [] bcProblem 0).2 (by decide) wSubmitRes hmem2

end PyMastery
